import Mathlib

/-!
Shallow embedding of the ClearSeas-Enhanced scroll-choreography code
(`MorphingTransitionSystem.js` and `ClearSeasEnhancedApp.js`).

JavaScript numbers are modelled as exact rationals (`ℚ`); decimal literals
such as `0.4` denote the exact rational the source text writes.  The
transcendental pieces of the JS `Math` object (`Math.PI`, `Math.cos`,
`Math.sin`) and the nondeterministic `Math.random` are modelled by an
explicit environment `MathEnv`, so that every definition stays executable;
theorems quantify over the environment wherever the source value is
irrelevant, and a fresh `random` stream models a fresh invocation.
-/

namespace ClearSeas

/-- Model of the JS `Math` object as used by `MorphingTransitionSystem`:
`pi`, `cos`, `sin`, and the per-card-invocation stream of `Math.random()`
draws (`random i` is the value drawn while processing card `i`). -/
structure MathEnv where
  pi : ℚ
  cos : ℚ → ℚ
  sin : ℚ → ℚ
  random : ℕ → ℚ

/-- `MorphingTransitionSystem.lerp(a, b, t) = a + (b - a) * t`. -/
def lerp (a b t : ℚ) : ℚ := a + (b - a) * t

/-- `MorphingTransitionSystem.easeInOutCubic(t)`:
`t < 0.5 ? 4 * t * t * t : 1 - Math.pow(-2 * t + 2, 3) / 2`. -/
def easeInOutCubic (t : ℚ) : ℚ :=
  if t < 0.5 then 4 * t * t * t else 1 - (-2 * t + 2) ^ 3 / 2

/-- `MorphingTransitionSystem.easeOutBack(t)` with `c1 = 1.70158`,
`c3 = c1 + 1`: `1 + c3 * (t-1)^3 + c1 * (t-1)^2`. -/
def easeOutBack (t : ℚ) : ℚ :=
  1 + (1.70158 + 1) * (t - 1) ^ 3 + 1.70158 * (t - 1) ^ 2

/-- A per-section visualizer preset, as registered by
`ClearSeasEnhancedApplication.registerSections` (fields `geometry`, `hue`,
`intensity`, `chaos`, `speed`, `gridDensity`). -/
structure VisualizerState where
  geometry : ℚ
  hue : ℚ
  intensity : ℚ
  chaos : ℚ
  speed : ℚ
  gridDensity : ℚ
deriving DecidableEq

/-- The visualizer parameter object `this.visualizer.params`: the fields
`morphVisualizer` writes. -/
structure VisualizerParams where
  geometry : ℚ
  hue : ℚ
  intensity : ℚ
  chaos : ℚ
  gridDensity : ℚ
  morphFactor : ℚ
  rot4dXW : ℚ
  rot4dYW : ℚ
deriving DecidableEq

/-- `MorphingTransitionSystem.morphVisualizer(fromState, toState, progress)`,
as the new value of `this.visualizer.params` given its previous value
`params`.  The source computes `ease = easeInOutCubic(progress)`, lerps the
five preset-backed fields, sets `morphFactor = Math.sin(ease * Math.PI)`,
and accumulates `rot4dXW += 0.002 * ease`, `rot4dYW += 0.0015 * ease`. -/
def morphVisualizer (m : MathEnv) (params : VisualizerParams)
    (fromState toState : VisualizerState) (progress : ℚ) : VisualizerParams :=
  let ease := easeInOutCubic progress
  { geometry := lerp fromState.geometry toState.geometry ease
    hue := lerp fromState.hue toState.hue ease
    intensity := lerp fromState.intensity toState.intensity ease
    chaos := lerp fromState.chaos toState.chaos ease
    gridDensity := lerp fromState.gridDensity toState.gridDensity ease
    morphFactor := m.sin (ease * m.pi)
    rot4dXW := params.rot4dXW + 0.002 * ease
    rot4dYW := params.rot4dYW + 0.0015 * ease }

/-- The inline style values `gsap.set` writes to one card: `x`, `y`,
`rotation` (degrees), `scale`, `opacity`, and the blur radius of the
`filter: blur(..px)` string. -/
structure CardStyle where
  x : ℚ
  y : ℚ
  rotation : ℚ
  scale : ℚ
  opacity : ℚ
  blur : ℚ
deriving DecidableEq

/-- The body of the `cards.forEach` loop of
`MorphingTransitionSystem.disassembleCards` for the card at index `i` of a
section with `n` cards: `delay = i * 0.1`,
`adjustedProgress = Math.max(0, Math.min(1, progress - delay))`,
`angle = (i / n) * Math.PI * 2`, `distance = adjustedProgress * 200`, then
`gsap.set(card, \x7bx, y, rotation, scale, opacity, filter\x7d)`. -/
def disassembleCardStyle (m : MathEnv) (n i : ℕ) (progress : ℚ) : CardStyle :=
  let delay := (i : ℚ) * 0.1
  let adjustedProgress := max 0 (min 1 (progress - delay))
  let angle := ((i : ℚ) / (n : ℚ)) * m.pi * 2
  let distance := adjustedProgress * 200
  { x := m.cos angle * distance
    y := m.sin angle * distance
    rotation := adjustedProgress * (m.random i - 0.5) * 45
    scale := 1 - adjustedProgress * 0.5
    opacity := 1 - adjustedProgress
    blur := adjustedProgress * 12 }

/-- `MorphingTransitionSystem.disassembleCards(cards, progress)`: the style
written to each of the `n` cards of the from-section, by index. -/
def disassembleCards (m : MathEnv) (n : ℕ) (progress : ℚ) : List CardStyle :=
  (List.range n).map fun i => disassembleCardStyle m n i progress

/-- The style written to the inner content elements of a card
(`h2, p, .signal-metadata`) by `assembleCards` once the card has
solidified: `opacity = contentProgress`, `y = (1 - contentProgress) * 20`. -/
structure ContentStyle where
  opacity : ℚ
  y : ℚ
deriving DecidableEq

/-- One card's writes in `assembleCards`: the card style, and the content
style when `easedProgress > 0.5` (otherwise the content is not written). -/
structure AssembleWrite where
  style : CardStyle
  content : Option ContentStyle
deriving DecidableEq

/-- The body of the `cards.forEach` loop of
`MorphingTransitionSystem.assembleCards` for the card at index `i`:
`delay = i * 0.15`, `adjustedProgress = Math.max(0, Math.min(1, progress - delay))`,
`easedProgress = easeOutBack(adjustedProgress)`, the `gsap.set` of the card,
and the content writes gated on `easedProgress > 0.5` with
`contentProgress = (easedProgress - 0.5) / 0.5`. -/
def assembleCardStyle (i : ℕ) (progress : ℚ) : AssembleWrite :=
  let delay := (i : ℚ) * 0.15
  let adjustedProgress := max 0 (min 1 (progress - delay))
  let easedProgress := easeOutBack adjustedProgress
  { style :=
      { x := 0
        y := 0
        rotation := 0
        scale := 0.8 + easedProgress * 0.2
        opacity := easedProgress
        blur := (1 - easedProgress) * 8 }
    content :=
      if easedProgress > 0.5 then
        some { opacity := (easedProgress - 0.5) / 0.5
               y := (1 - (easedProgress - 0.5) / 0.5) * 20 }
      else none }

/-- `MorphingTransitionSystem.assembleCards(cards, progress)`: the writes to
each of the `n` cards of the to-section, by index. -/
def assembleCards (n : ℕ) (progress : ℚ) : List AssembleWrite :=
  (List.range n).map fun i => assembleCardStyle i progress

/-- The part of a registered section configuration that
`onTransitionProgress` reads: the number of cards of the section and its
visualizer preset.  (The card DOM nodes themselves enter the computation
only through their index and count.) -/
structure TransitionConfig where
  cardCount : ℕ
  visualizerState : VisualizerState
deriving DecidableEq

/-- Everything one call of `onTransitionProgress` writes: the styles set on
the from-section's cards (none when the disassemble phase is inactive), the
new visualizer params (none when the morph phase is inactive or when
`this.visualizer`/`this.visualizer.params` is absent), and the writes to the
to-section's cards (none when the assemble phase is inactive). -/
structure TransitionFrame where
  fromCardWrites : Option (List CardStyle)
  visualizerWrite : Option VisualizerParams
  toCardWrites : Option (List AssembleWrite)
deriving DecidableEq

/-- `MorphingTransitionSystem.onTransitionProgress(fromConfig, toConfig,
progress)`: phase 1 (`progress < 0.4`) disassembles the from-cards at
`progress / 0.4`; phase 2 (`0.3 <= progress <= 0.7`) morphs the visualizer
at `(progress - 0.3) / 0.4`; phase 3 (`progress >= 0.6`) assembles the
to-cards at `(progress - 0.6) / 0.4`.  `vis` is the current
`this.visualizer.params` when the visualizer and its params exist
(`morphVisualizer` returns without writing otherwise). -/
def onTransitionProgress (m : MathEnv) (fromConfig toConfig : TransitionConfig)
    (progress : ℚ) (vis : Option VisualizerParams) : TransitionFrame :=
  { fromCardWrites :=
      if progress < 0.4 then
        some (disassembleCards m fromConfig.cardCount (progress / 0.4))
      else none
    visualizerWrite :=
      if 0.3 ≤ progress ∧ progress ≤ 0.7 then
        vis.map fun params =>
          morphVisualizer m params fromConfig.visualizerState
            toConfig.visualizerState ((progress - 0.3) / 0.4)
      else none
    toCardWrites :=
      if 0.6 ≤ progress then
        some (assembleCards toConfig.cardCount ((progress - 0.6) / 0.4))
      else none }

/-- JS `Map.prototype.get`, on the insertion-ordered entry list. -/
def mapGet {α : Type} (m : List (String × α)) (k : String) : Option α :=
  match m with
  | [] => none
  | (k₀, v₀) :: rest => if k₀ = k then some v₀ else mapGet rest k

/-- JS `Map.prototype.set`: overwrite the entry in place when the key is
present, append a new entry otherwise. -/
def mapSet {α : Type} (m : List (String × α)) (k : String) (v : α) :
    List (String × α) :=
  match m with
  | [] => [(k, v)]
  | (k₀, v₀) :: rest =>
      if k₀ = k then (k, v) :: rest else (k₀, v₀) :: mapSet rest k v

/-- A section DOM element as `registerSection` uses it:
`querySelectorAll` maps a selector string to the matched card elements
(abstract handles). -/
structure SectionElem where
  querySelectorAll : String → List ℕ

/-- The `document` as `registerSection` uses it. -/
structure Document where
  getElementById : String → Option SectionElem

/-- The configuration object passed to `registerSection`, with the fields
the call sites in `registerSections` supply. -/
structure RegisterConfig where
  cardSelector : Option String
  layout : Option String
  visualizerState : VisualizerState

/-- The default card selector of `registerSection`:
`config.cardSelector || '.signal-card, .card, .capability-card'`. -/
def defaultCardSelector : String := ".signal-card, .card, .capability-card"

/-- The value stored in `this.sectionConfigs` by `registerSection`.  The
source builds `\x7bsection, cards, layout, cardCount, visualizerState,
...config\x7d`; the trailing spread re-applies the config's own fields, so
the stored `layout` is `config.layout || 'grid'` either way and
`cardSelector` is carried along verbatim.  The `section` element is stored
as `sectionEl` (`section` is a Lean keyword). -/
structure StoredConfig where
  sectionEl : SectionElem
  cards : List ℕ
  layout : String
  cardCount : ℕ
  visualizerState : VisualizerState
  cardSelector : Option String

/-- `MorphingTransitionSystem.registerSection(sectionId, config)`: when
`document.getElementById(sectionId)` is null it warns and returns with the
map untouched; otherwise it queries the cards and stores the configuration
under `sectionId`. -/
def registerSection (doc : Document) (m : List (String × StoredConfig))
    (sectionId : String) (config : RegisterConfig) :
    List (String × StoredConfig) :=
  match doc.getElementById sectionId with
  | none => m
  | some sectionEl =>
      let cards := sectionEl.querySelectorAll
        (config.cardSelector.getD defaultCardSelector)
      mapSet m sectionId
        { sectionEl := sectionEl
          cards := cards
          layout := config.layout.getD "grid"
          cardCount := cards.length
          visualizerState := config.visualizerState
          cardSelector := config.cardSelector }

/-- `MorphingTransitionSystem.createMorphTransition(fromSectionId,
toSectionId)`: looks both configs up and returns early when either is
absent; otherwise it installs one scroll-triggered transition, recorded
here as the ordered pair of section ids. -/
def createMorphTransition (configs : List (String × StoredConfig))
    (fromSectionId toSectionId : String) : Option (String × String) :=
  match mapGet configs fromSectionId, mapGet configs toSectionId with
  | some _, some _ => some (fromSectionId, toSectionId)
  | _, _ => none

/-- `MorphingTransitionSystem.setupMorphingTransitions()`: for
`i = 0 .. sections.length - 2` it calls
`createMorphTransition(sections[i], sections[i+1])` over the keys of
`this.sectionConfigs` in insertion order; the consecutive index pairs are
exactly `sections.zip sections.tail`. -/
def setupMorphingTransitions (configs : List (String × StoredConfig)) :
    List (String × String) :=
  let sections := configs.map Prod.fst
  (sections.zip sections.tail).filterMap fun p =>
    createMorphTransition configs p.1 p.2

/-- The created `WorkingQuantumVisualizer`, reduced to the one field
`ClearSeasEnhancedApplication.initialize` inspects: whether `this.gl` is
present. -/
structure Visualizer where
  gl : Bool
deriving DecidableEq

/-- The fields of `ClearSeasEnhancedApplication` that `initialize`
reads or writes: `quantumVisualizer`, the choreography system
(`morphingSystem`), and `isInitialized`. -/
structure AppState where
  quantumVisualizer : Option Visualizer
  morphingSystem : Option Unit
  isInitialized : Bool
deriving DecidableEq

/-- The observable effects of one `initialize` call, in order: log calls,
subsystem construction, and the `clearSeasEnhancedReady` dispatch. -/
inductive InitEvent where
  | logInfo (msg : String)
  | logWarn (msg : String)
  | logError (msg : String)
  | createVisualizer
  | startRenderLoop
  | createMorphingSystem
  | registerSections
  | setupMorphingTransitions
  | setupTextScrollOff
  | dispatchReady
deriving DecidableEq

/-- `ClearSeasEnhancedApplication.initialize()` (the `MorphingTransitionSystem`
variant of the file; the `DetailedScrollChoreographer` variant has the same
guard, gl check and catch, differing only in which choreography subsystem
it constructs).  `glOk` is whether the created visualizer has a WebGL
context (`this.quantumVisualizer.gl`); when it does not, the method throws
`new Error('Failed to create WebGL context')`, which the surrounding
`try/catch` catches and logs, and the method returns normally.  The
visualizer field was already assigned before the check; `isInitialized` is
only set after every setup step succeeds, just before the
`clearSeasEnhancedReady` dispatch. -/
def initializeApp (glOk : Bool) (s : AppState) : AppState × List InitEvent :=
  if s.isInitialized then
    (s, [InitEvent.logWarn "Already initialized"])
  else if glOk then
    ({ quantumVisualizer := some { gl := true }
       morphingSystem := some ()
       isInitialized := true },
     [InitEvent.logInfo "Creating WorkingQuantumVisualizer...",
      InitEvent.createVisualizer,
      InitEvent.logInfo "WorkingQuantumVisualizer created with WebGL context",
      InitEvent.startRenderLoop,
      InitEvent.logInfo "Render loop started",
      InitEvent.logInfo "Creating MorphingTransitionSystem...",
      InitEvent.createMorphingSystem,
      InitEvent.registerSections,
      InitEvent.setupMorphingTransitions,
      InitEvent.setupTextScrollOff,
      InitEvent.logInfo "Integrated morphing system initialized",
      InitEvent.logInfo "Application initialized successfully",
      InitEvent.dispatchReady])
  else
    ({ s with quantumVisualizer := some { gl := false } },
     [InitEvent.logInfo "Creating WorkingQuantumVisualizer...",
      InitEvent.createVisualizer,
      InitEvent.logError "Initialization failed:"])

/-- `x` lies (inclusively) between `a` and `b`, in either order. -/
def Between (a b x : ℚ) : Prop := min a b ≤ x ∧ x ≤ max a b

/-- The hero-section preset of `registerSections`. -/
def heroState : VisualizerState :=
  { geometry := 2, hue := 180, intensity := 0.6, chaos := 0.1,
    speed := 0.8, gridDensity := 20 }

/-- The capabilities-section preset of `registerSections`. -/
def capabilitiesState : VisualizerState :=
  { geometry := 7, hue := 280, intensity := 0.7, chaos := 0.2,
    speed := 1.0, gridDensity := 30 }

/-- A concrete `MathEnv` (one possible run of `Math`). -/
def mZero : MathEnv :=
  { pi := 0, cos := fun _ => 0, sin := fun _ => 0, random := fun _ => 0 }

/-- A second concrete `MathEnv`, agreeing with `mZero` on `pi`, `cos`,
`sin` but drawing different `Math.random()` values. -/
def mRand : MathEnv :=
  { pi := 0, cos := fun _ => 0, sin := fun _ => 0, random := fun _ => 0.5 }

/-- A concrete visualizer params object. -/
def paramsA : VisualizerParams :=
  { geometry := 0, hue := 0, intensity := 0, chaos := 0, gridDensity := 0,
    morphFactor := 0, rot4dXW := 0, rot4dYW := 0 }

/-- Like `paramsA` but carrying a different accumulated `rot4dXW`. -/
def paramsB : VisualizerParams :=
  { geometry := 0, hue := 0, intensity := 0, chaos := 0, gridDensity := 0,
    morphFactor := 0, rot4dXW := 1, rot4dYW := 0 }

/-- A concrete transition config (hero side). -/
def heroConfig : TransitionConfig :=
  { cardCount := 4, visualizerState := heroState }

/-- A concrete transition config (capabilities side). -/
def capabilitiesConfig : TransitionConfig :=
  { cardCount := 4, visualizerState := capabilitiesState }

/-- A concrete section element: two `.signal-card` children. -/
def sec0 : SectionElem :=
  { querySelectorAll := fun sel => if sel = ".signal-card" then [10, 11] else [] }

/-- A concrete document holding only the `hero` section. -/
def doc0 : Document :=
  { getElementById := fun s => if s = "hero" then some sec0 else none }

/-- The hero-section argument of `registerSection` in `registerSections`. -/
def config0 : RegisterConfig :=
  { cardSelector := some ".signal-card", layout := some "grid",
    visualizerState := heroState }

/-- A fully initialized application state. -/
def appInit : AppState :=
  { quantumVisualizer := some { gl := true }, morphingSystem := some (),
    isInitialized := true }

/-- A freshly constructed application state. -/
def appFresh : AppState :=
  { quantumVisualizer := none, morphingSystem := none, isInitialized := false }

/-! ### Arithmetic helper lemmas -/

lemma three_sq_nonneg (a b : ℚ) : 0 ≤ a ^ 2 + a * b + b ^ 2 := by
  nlinarith [sq_nonneg (a + b), sq_nonneg a, sq_nonneg b]

lemma cube_le_cube {a b : ℚ} (h : a ≤ b) : a ^ 3 ≤ b ^ 3 := by
  nlinarith [mul_nonneg (sub_nonneg.2 h) (three_sq_nonneg a b)]

lemma lerp_zero (a b : ℚ) : lerp a b 0 = a := by unfold lerp; ring

lemma lerp_one (a b : ℚ) : lerp a b 1 = b := by unfold lerp; ring

lemma lerp_between {e : ℚ} (a b : ℚ) (h0 : 0 ≤ e) (h1 : e ≤ 1) :
    Between a b (lerp a b e) := by
  unfold Between lerp
  rcases le_total a b with h | h
  · rw [min_eq_left h, max_eq_right h]
    constructor <;> nlinarith [mul_nonneg (sub_nonneg.2 h) h0]
  · rw [min_eq_right h, max_eq_left h]
    constructor <;> nlinarith [mul_nonneg (sub_nonneg.2 h) (sub_nonneg.2 h1)]

lemma easeInOutCubic_zero : easeInOutCubic 0 = 0 := by
  norm_num [easeInOutCubic]

lemma easeInOutCubic_one : easeInOutCubic 1 = 1 := by
  norm_num [easeInOutCubic]

lemma easeInOutCubic_mem_Icc {t : ℚ} (h0 : 0 ≤ t) (h1 : t ≤ 1) :
    0 ≤ easeInOutCubic t ∧ easeInOutCubic t ≤ 1 := by
  unfold easeInOutCubic
  split_ifs with h
  · have hc : t ^ 3 ≤ (1 / 2 : ℚ) ^ 3 := cube_le_cube (by linarith)
    constructor
    · nlinarith [mul_nonneg (mul_nonneg h0 h0) h0]
    · nlinarith [hc]
  · push_neg at h
    have hx0 : (0 : ℚ) ≤ -2 * t + 2 := by linarith
    have hx1 : -2 * t + 2 ≤ 1 := by linarith
    have hc1 : (-2 * t + 2) ^ 3 ≤ 1 := pow_le_one₀ hx0 hx1
    have hc0 : 0 ≤ (-2 * t + 2) ^ 3 := by positivity
    constructor <;> linarith

lemma easeInOutCubic_mono {t₁ t₂ : ℚ} (h0 : 0 ≤ t₁) (h12 : t₁ ≤ t₂)
    (h1 : t₂ ≤ 1) : easeInOutCubic t₁ ≤ easeInOutCubic t₂ := by
  unfold easeInOutCubic
  split_ifs with ha hb hb
  · nlinarith [cube_le_cube h12]
  · push_neg at hb
    have hx0 : (0 : ℚ) ≤ -2 * t₂ + 2 := by linarith
    have hx1 : -2 * t₂ + 2 ≤ 1 := by linarith
    have hc1 : (-2 * t₂ + 2) ^ 3 ≤ 1 := pow_le_one₀ hx0 hx1
    have hcube : t₁ ^ 3 ≤ (1 / 2 : ℚ) ^ 3 := cube_le_cube (by linarith)
    nlinarith [hcube]
  · exact absurd (lt_of_le_of_lt h12 hb) (not_lt.2 (not_lt.1 ha))
  · have hle : -2 * t₂ + 2 ≤ -2 * t₁ + 2 := by linarith
    have := cube_le_cube hle
    linarith

/-! ### Claim theorems -/

/-- C4: `lerp` is exact linear interpolation: for all rationals `a`, `b`,
`t`, `lerp a b t = a + (b - a) * t`, with `lerp a b 0 = a`,
`lerp a b 1 = b`, and `lerp a a t = a`. -/
theorem lerp_exact_linear_interpolation :
    ∀ a b t : ℚ, lerp a b t = a + (b - a) * t ∧ lerp a b 0 = a ∧
      lerp a b 1 = b ∧ lerp a a t = a := by
  intro a b t
  refine ⟨rfl, lerp_zero a b, lerp_one a b, ?_⟩
  unfold lerp; ring

/-- C5: `easeInOutCubic` is a well-formed easing function: it equals
`4 * t ^ 3` for `t < 0.5` and `1 - (2 - 2 * t) ^ 3 / 2` otherwise, it maps
`0` to `0` and `1` to `1`, the two pieces both take the value `1 / 2` at
`t = 0.5`, and it is monotonically nondecreasing on `[0, 1]`. -/
theorem easeInOutCubic_well_formed :
    (∀ t : ℚ, t < 0.5 → easeInOutCubic t = 4 * t ^ 3) ∧
    (∀ t : ℚ, ¬ t < 0.5 → easeInOutCubic t = 1 - (2 - 2 * t) ^ 3 / 2) ∧
    easeInOutCubic 0 = 0 ∧ easeInOutCubic 1 = 1 ∧
    4 * (0.5 : ℚ) ^ 3 = 1 / 2 ∧ 1 - (2 - 2 * (0.5 : ℚ)) ^ 3 / 2 = 1 / 2 ∧
    (∀ t₁ t₂ : ℚ, 0 ≤ t₁ → t₁ ≤ t₂ → t₂ ≤ 1 →
      easeInOutCubic t₁ ≤ easeInOutCubic t₂) := by
  refine ⟨?_, ?_, easeInOutCubic_zero, easeInOutCubic_one, by norm_num,
    by norm_num, fun t₁ t₂ h0 h12 h1 => easeInOutCubic_mono h0 h12 h1⟩
  · intro t h
    unfold easeInOutCubic
    rw [if_pos h]; ring
  · intro t h
    unfold easeInOutCubic
    rw [if_neg h]; ring_nf

/-- Witness for C5 at concrete inputs. -/
theorem easeInOutCubic_well_formed_witness :
    easeInOutCubic (1 / 4 : ℚ) ≤ easeInOutCubic (3 / 4 : ℚ) ∧
    easeInOutCubic (1 / 4 : ℚ) = 4 * (1 / 4 : ℚ) ^ 3 :=
  ⟨easeInOutCubic_well_formed.2.2.2.2.2.2 (1 / 4) (3 / 4) (by norm_num)
      (by norm_num) (by norm_num),
   easeInOutCubic_well_formed.1 (1 / 4) (by norm_num)⟩

/-- C9: for every environment, card count `n`, card index `i` and progress
value `p` (including values outside `[0, 1]`), `disassembleCards` clamps
the per-card adjusted progress `p - i * 0.1` to `[0, 1]`, so the written
opacity lies in `[0, 1]`, the scale in `[0.5, 1]`, and the blur radius in
`[0, 12]`. -/
theorem disassembleCards_style_ranges :
    ∀ (m : MathEnv) (n i : ℕ) (p : ℚ),
      (disassembleCardStyle m n i p).opacity
          = 1 - max 0 (min 1 (p - (i : ℚ) * 0.1)) ∧
      (disassembleCardStyle m n i p).scale
          = 1 - max 0 (min 1 (p - (i : ℚ) * 0.1)) * 0.5 ∧
      (disassembleCardStyle m n i p).blur
          = max 0 (min 1 (p - (i : ℚ) * 0.1)) * 12 ∧
      0 ≤ (disassembleCardStyle m n i p).opacity ∧
      (disassembleCardStyle m n i p).opacity ≤ 1 ∧
      1 / 2 ≤ (disassembleCardStyle m n i p).scale ∧
      (disassembleCardStyle m n i p).scale ≤ 1 ∧
      0 ≤ (disassembleCardStyle m n i p).blur ∧
      (disassembleCardStyle m n i p).blur ≤ 12 := by
  intro m n i p
  have hop : (disassembleCardStyle m n i p).opacity
      = 1 - max 0 (min 1 (p - (i : ℚ) * 0.1)) := rfl
  have hsc : (disassembleCardStyle m n i p).scale
      = 1 - max 0 (min 1 (p - (i : ℚ) * 0.1)) * 0.5 := rfl
  have hbl : (disassembleCardStyle m n i p).blur
      = max 0 (min 1 (p - (i : ℚ) * 0.1)) * 12 := rfl
  have h0 : (0 : ℚ) ≤ max 0 (min 1 (p - (i : ℚ) * 0.1)) := le_max_left _ _
  have h1 : max 0 (min 1 (p - (i : ℚ) * 0.1)) ≤ 1 :=
    max_le (by norm_num) (min_le_left _ _)
  refine ⟨hop, hsc, hbl, ?_, ?_, ?_, ?_, ?_, ?_⟩
  · rw [hop]; linarith
  · rw [hop]; linarith
  · rw [hsc]; linarith
  · rw [hsc]; linarith
  · rw [hbl]; linarith
  · rw [hbl]; linarith

/-- C1: for every progress `p` in `[0, 1]`, `onTransitionProgress` applies
exactly the phase-gated transformations of its three timeline windows:
it disassembles the from-section's cards at `p / 0.4` if and only if
`p < 0.4`, it morphs the visualizer at `(p - 0.3) / 0.4` if and only if
`0.3 ≤ p ≤ 0.7`, and it assembles the to-section's cards at
`(p - 0.6) / 0.4` if and only if `p ≥ 0.6`; the card and visualizer
windows overlap on `(0.3, 0.4)` and on `[0.6, 0.7]`, and every `p` lies in
at least one window. -/
theorem onTransitionProgress_phase_windows :
    ∀ (m : MathEnv) (fc tc : TransitionConfig) (p : ℚ)
      (params : VisualizerParams), 0 ≤ p → p ≤ 1 →
      ((onTransitionProgress m fc tc p (some params)).fromCardWrites.isSome
        ↔ p < 0.4) ∧
      (p < 0.4 →
        (onTransitionProgress m fc tc p (some params)).fromCardWrites
          = some (disassembleCards m fc.cardCount (p / 0.4))) ∧
      ((onTransitionProgress m fc tc p (some params)).visualizerWrite.isSome
        ↔ 0.3 ≤ p ∧ p ≤ 0.7) ∧
      (0.3 ≤ p → p ≤ 0.7 →
        (onTransitionProgress m fc tc p (some params)).visualizerWrite
          = some (morphVisualizer m params fc.visualizerState
              tc.visualizerState ((p - 0.3) / 0.4))) ∧
      ((onTransitionProgress m fc tc p (some params)).toCardWrites.isSome
        ↔ 0.6 ≤ p) ∧
      (0.6 ≤ p →
        (onTransitionProgress m fc tc p (some params)).toCardWrites
          = some (assembleCards tc.cardCount ((p - 0.6) / 0.4))) ∧
      (0.3 < p → p < 0.4 →
        (onTransitionProgress m fc tc p (some params)).fromCardWrites.isSome ∧
        (onTransitionProgress m fc tc p (some params)).visualizerWrite.isSome) ∧
      (0.6 ≤ p → p ≤ 0.7 →
        (onTransitionProgress m fc tc p (some params)).toCardWrites.isSome ∧
        (onTransitionProgress m fc tc p (some params)).visualizerWrite.isSome) ∧
      ((onTransitionProgress m fc tc p (some params)).fromCardWrites.isSome ∨
       (onTransitionProgress m fc tc p (some params)).visualizerWrite.isSome ∨
       (onTransitionProgress m fc tc p (some params)).toCardWrites.isSome) := by
  intro m fc tc p params hp0 hp1
  have hfrom : (onTransitionProgress m fc tc p (some params)).fromCardWrites
      = if p < 0.4 then some (disassembleCards m fc.cardCount (p / 0.4))
        else none := rfl
  have hvis : (onTransitionProgress m fc tc p (some params)).visualizerWrite
      = if 0.3 ≤ p ∧ p ≤ 0.7 then
          some (morphVisualizer m params fc.visualizerState
            tc.visualizerState ((p - 0.3) / 0.4))
        else none := by
    unfold onTransitionProgress
    split_ifs <;> rfl
  have hto : (onTransitionProgress m fc tc p (some params)).toCardWrites
      = if 0.6 ≤ p then some (assembleCards tc.cardCount ((p - 0.6) / 0.4))
        else none := rfl
  refine ⟨?_, ?_, ?_, ?_, ?_, ?_, ?_, ?_, ?_⟩
  · rw [hfrom]; split_ifs with h <;> simp [h]
  · intro h; rw [hfrom, if_pos h]
  · rw [hvis]; split_ifs with h <;> simp [h]
  · intro ha hb; rw [hvis, if_pos ⟨ha, hb⟩]
  · rw [hto]; split_ifs with h <;> simp [h]
  · intro h; rw [hto, if_pos h]
  · intro ha hb
    constructor
    · rw [hfrom, if_pos hb]; rfl
    · rw [hvis, if_pos ⟨le_of_lt ha, by linarith⟩]; rfl
  · intro ha hb
    constructor
    · rw [hto, if_pos ha]; rfl
    · rw [hvis, if_pos ⟨by linarith, hb⟩]; rfl
  · by_cases h4 : p < 0.4
    · left; rw [hfrom, if_pos h4]; rfl
    · push_neg at h4
      by_cases h7 : p ≤ 0.7
      · right; left; rw [hvis, if_pos ⟨by linarith, h7⟩]; rfl
      · right; right; rw [hto, if_pos (by linarith)]; rfl

/-- Witness for C1 at `p = 0.65`: both the morph window and the assemble
window are active, and the assemble write carries progress
`(0.65 - 0.6) / 0.4`. -/
theorem onTransitionProgress_phase_windows_witness :
    (onTransitionProgress mZero heroConfig capabilitiesConfig 0.65
      (some paramsA)).visualizerWrite.isSome ∧
    (onTransitionProgress mZero heroConfig capabilitiesConfig 0.65
      (some paramsA)).toCardWrites
        = some (assembleCards capabilitiesConfig.cardCount
            ((0.65 - 0.6) / 0.4)) := by
  have h := onTransitionProgress_phase_windows mZero heroConfig
    capabilitiesConfig 0.65 paramsA (by norm_num) (by norm_num)
  exact ⟨h.2.2.1.mpr ⟨by norm_num, by norm_num⟩,
    h.2.2.2.2.2.1 (by norm_num)⟩

/-- C2 counterexample: `morphVisualizer` also writes `rot4dXW` (and
`rot4dYW`, `morphFactor`), and the value written to `rot4dXW` at morph
progress `t = 1` is the previous accumulated value plus `0.002 * 1`: with
the hero and capabilities presets it is `0.002` when the previous value is
`0` and `1.002` when it is `1`, so the written parameters at `t = 1` are
not determined by (and not between) the preset values. -/
theorem morphVisualizer_writes_not_interpolated_cex :
    (morphVisualizer mZero paramsA heroState capabilitiesState 1).rot4dXW
        = 0.002 ∧
    (morphVisualizer mZero paramsB heroState capabilitiesState 1).rot4dXW
        = 1.002 ∧
    ¬ (morphVisualizer mZero paramsA heroState capabilitiesState 1).rot4dXW
        = (morphVisualizer mZero paramsB heroState capabilitiesState
            1).rot4dXW := by
  have hA : (morphVisualizer mZero paramsA heroState capabilitiesState
      1).rot4dXW = paramsA.rot4dXW + 0.002 * easeInOutCubic 1 := rfl
  have hB : (morphVisualizer mZero paramsB heroState capabilitiesState
      1).rot4dXW = paramsB.rot4dXW + 0.002 * easeInOutCubic 1 := rfl
  have ha : paramsA.rot4dXW = 0 := rfl
  have hb : paramsB.rot4dXW = 1 := rfl
  refine ⟨?_, ?_, ?_⟩
  · rw [hA, ha, easeInOutCubic_one]; norm_num
  · rw [hB, hb, easeInOutCubic_one]; norm_num
  · rw [hA, hB, ha, hb]
    intro h
    linarith

/-- C2 amended: the five preset-backed parameters (`geometry`, `hue`,
`intensity`, `chaos`, `gridDensity`) written by `morphVisualizer` are
interpolations between the from-preset and the to-preset: for `t` in
`[0, 1]` each lies between the corresponding preset values, at `t = 0` it
equals the from-value and at `t = 1` the to-value.  The remaining writes
are not interpolations of presets: `morphFactor` is set to
`sin(ease * pi)` and `rot4dXW`, `rot4dYW` are incremented by
`0.002 * ease` and `0.0015 * ease` on top of their previous values. -/
theorem morphVisualizer_preset_interpolation :
    ∀ (m : MathEnv) (params : VisualizerParams) (fs ts : VisualizerState)
      (t : ℚ), 0 ≤ t → t ≤ 1 →
      Between fs.geometry ts.geometry
        (morphVisualizer m params fs ts t).geometry ∧
      Between fs.hue ts.hue (morphVisualizer m params fs ts t).hue ∧
      Between fs.intensity ts.intensity
        (morphVisualizer m params fs ts t).intensity ∧
      Between fs.chaos ts.chaos (morphVisualizer m params fs ts t).chaos ∧
      Between fs.gridDensity ts.gridDensity
        (morphVisualizer m params fs ts t).gridDensity ∧
      ((morphVisualizer m params fs ts 0).geometry = fs.geometry ∧
       (morphVisualizer m params fs ts 0).hue = fs.hue ∧
       (morphVisualizer m params fs ts 0).intensity = fs.intensity ∧
       (morphVisualizer m params fs ts 0).chaos = fs.chaos ∧
       (morphVisualizer m params fs ts 0).gridDensity = fs.gridDensity) ∧
      ((morphVisualizer m params fs ts 1).geometry = ts.geometry ∧
       (morphVisualizer m params fs ts 1).hue = ts.hue ∧
       (morphVisualizer m params fs ts 1).intensity = ts.intensity ∧
       (morphVisualizer m params fs ts 1).chaos = ts.chaos ∧
       (morphVisualizer m params fs ts 1).gridDensity = ts.gridDensity) ∧
      (morphVisualizer m params fs ts t).rot4dXW
          = params.rot4dXW + 0.002 * easeInOutCubic t ∧
      (morphVisualizer m params fs ts t).rot4dYW
          = params.rot4dYW + 0.0015 * easeInOutCubic t ∧
      (morphVisualizer m params fs ts t).morphFactor
          = m.sin (easeInOutCubic t * m.pi) := by
  intro m params fs ts t h0 h1
  have he := easeInOutCubic_mem_Icc h0 h1
  have hb : ∀ a b : ℚ, Between a b (lerp a b (easeInOutCubic t)) :=
    fun a b => lerp_between a b he.1 he.2
  refine ⟨hb _ _, hb _ _, hb _ _, hb _ _, hb _ _, ?_, ?_, rfl, rfl, rfl⟩
  · refine ⟨?_, ?_, ?_, ?_, ?_⟩ <;>
      · show lerp _ _ (easeInOutCubic 0) = _
        rw [easeInOutCubic_zero, lerp_zero]
  · refine ⟨?_, ?_, ?_, ?_, ?_⟩ <;>
      · show lerp _ _ (easeInOutCubic 1) = _
        rw [easeInOutCubic_one, lerp_one]

/-- Witness for C2's amended theorem at `t = 0.5` with the hero and
capabilities presets. -/
theorem morphVisualizer_preset_interpolation_witness :
    Between heroState.hue capabilitiesState.hue
      (morphVisualizer mZero paramsA heroState capabilitiesState 0.5).hue ∧
    (morphVisualizer mZero paramsA heroState capabilitiesState 0.5).rot4dXW
      = paramsA.rot4dXW + 0.002 * easeInOutCubic 0.5 := by
  have h := morphVisualizer_preset_interpolation mZero paramsA heroState
    capabilitiesState 0.5 (by norm_num) (by norm_num)
  exact ⟨h.2.1, h.2.2.2.2.2.2.2.1⟩

/-- C3 counterexample: two invocations with the same from-config,
to-config and progress do not write the same values.  The card `rotation`
write depends on the `Math.random()` draw of the invocation (two runs of
`Math` that agree on `pi`, `cos`, `sin` but draw differently give `-22.5`
versus `0`), and the visualizer write depends on the accumulated
`rot4dXW`/`rot4dYW` carried in `this.visualizer.params` from earlier
frames. -/
theorem transition_writes_depend_on_hidden_state_cex :
    CardStyle.rotation (disassembleCardStyle mZero 4 0 1) = -22.5 ∧
    CardStyle.rotation (disassembleCardStyle mRand 4 0 1) = 0 ∧
    ¬ CardStyle.rotation (disassembleCardStyle mZero 4 0 1)
        = CardStyle.rotation (disassembleCardStyle mRand 4 0 1) ∧
    ¬ (onTransitionProgress mZero heroConfig capabilitiesConfig 0.5
          (some paramsA)).visualizerWrite
        = (onTransitionProgress mZero heroConfig capabilitiesConfig 0.5
            (some paramsB)).visualizerWrite := by
  have hz : CardStyle.rotation (disassembleCardStyle mZero 4 0 1)
      = max 0 (min 1 (1 - (0 : ℚ) * 0.1)) * (mZero.random 0 - 0.5) * 45 :=
    rfl
  have hr : CardStyle.rotation (disassembleCardStyle mRand 4 0 1)
      = max 0 (min 1 (1 - (0 : ℚ) * 0.1)) * (mRand.random 0 - 0.5) * 45 :=
    rfl
  have hclamp : max 0 (min 1 (1 - (0 : ℚ) * 0.1)) = 1 := by norm_num
  have hz2 : CardStyle.rotation (disassembleCardStyle mZero 4 0 1)
      = -22.5 := by
    rw [hz, hclamp, show mZero.random 0 = 0 from rfl]; norm_num
  have hr2 : CardStyle.rotation (disassembleCardStyle mRand 4 0 1) = 0 := by
    rw [hr, hclamp, show mRand.random 0 = 0.5 from rfl]; norm_num
  refine ⟨hz2, hr2, ?_, ?_⟩
  · rw [hz2, hr2]; norm_num
  · have hwin : ((0.3 : ℚ) ≤ 0.5 ∧ (0.5 : ℚ) ≤ 0.7) := by norm_num
    have hA : (onTransitionProgress mZero heroConfig capabilitiesConfig 0.5
        (some paramsA)).visualizerWrite
          = some (morphVisualizer mZero paramsA heroConfig.visualizerState
              capabilitiesConfig.visualizerState ((0.5 - 0.3) / 0.4)) := by
      have hif : (onTransitionProgress mZero heroConfig capabilitiesConfig
          0.5 (some paramsA)).visualizerWrite
            = if (0.3 : ℚ) ≤ 0.5 ∧ (0.5 : ℚ) ≤ 0.7 then
                some (morphVisualizer mZero paramsA
                  heroConfig.visualizerState capabilitiesConfig.visualizerState
                  ((0.5 - 0.3) / 0.4))
              else none := by
        unfold onTransitionProgress; split_ifs <;> rfl
      rw [hif, if_pos hwin]
    have hB : (onTransitionProgress mZero heroConfig capabilitiesConfig 0.5
        (some paramsB)).visualizerWrite
          = some (morphVisualizer mZero paramsB heroConfig.visualizerState
              capabilitiesConfig.visualizerState ((0.5 - 0.3) / 0.4)) := by
      have hif : (onTransitionProgress mZero heroConfig capabilitiesConfig
          0.5 (some paramsB)).visualizerWrite
            = if (0.3 : ℚ) ≤ 0.5 ∧ (0.5 : ℚ) ≤ 0.7 then
                some (morphVisualizer mZero paramsB
                  heroConfig.visualizerState capabilitiesConfig.visualizerState
                  ((0.5 - 0.3) / 0.4))
              else none := by
        unfold onTransitionProgress; split_ifs <;> rfl
      rw [hif, if_pos hwin]
    intro h
    rw [hA, hB] at h
    have h2 := congrArg VisualizerParams.rot4dXW (Option.some.inj h)
    have h3 : paramsA.rot4dXW + 0.002 * easeInOutCubic ((0.5 - 0.3) / 0.4)
        = paramsB.rot4dXW + 0.002 * easeInOutCubic ((0.5 - 0.3) / 0.4) := h2
    rw [show paramsA.rot4dXW = 0 from rfl,
      show paramsB.rot4dXW = 1 from rfl] at h3
    linarith

/-- C3 amended: given equal `Math.PI`, `Math.cos`, `Math.sin`, the card
writes other than `rotation` and the visualizer writes other than
`rot4dXW`/`rot4dYW` are functions of the configs and the progress alone;
`rotation` additionally depends on the invocation's random draw, and
`rot4dXW`/`rot4dYW` additionally depend on the previous parameter values,
which accumulate across frames. -/
theorem transition_writes_deterministic_modulo :
    ∀ (m₁ m₂ : MathEnv) (fc tc : TransitionConfig) (p : ℚ)
      (pa pb : VisualizerParams) (fs ts : VisualizerState) (n i : ℕ)
      (q t : ℚ),
      m₁.pi = m₂.pi → m₁.cos = m₂.cos → m₁.sin = m₂.sin →
      ((disassembleCardStyle m₁ n i q).x = (disassembleCardStyle m₂ n i q).x ∧
       (disassembleCardStyle m₁ n i q).y = (disassembleCardStyle m₂ n i q).y ∧
       (disassembleCardStyle m₁ n i q).scale
         = (disassembleCardStyle m₂ n i q).scale ∧
       (disassembleCardStyle m₁ n i q).opacity
         = (disassembleCardStyle m₂ n i q).opacity ∧
       (disassembleCardStyle m₁ n i q).blur
         = (disassembleCardStyle m₂ n i q).blur) ∧
      ((morphVisualizer m₁ pa fs ts t).geometry
         = (morphVisualizer m₂ pb fs ts t).geometry ∧
       (morphVisualizer m₁ pa fs ts t).hue
         = (morphVisualizer m₂ pb fs ts t).hue ∧
       (morphVisualizer m₁ pa fs ts t).intensity
         = (morphVisualizer m₂ pb fs ts t).intensity ∧
       (morphVisualizer m₁ pa fs ts t).chaos
         = (morphVisualizer m₂ pb fs ts t).chaos ∧
       (morphVisualizer m₁ pa fs ts t).gridDensity
         = (morphVisualizer m₂ pb fs ts t).gridDensity ∧
       (morphVisualizer m₁ pa fs ts t).morphFactor
         = (morphVisualizer m₂ pb fs ts t).morphFactor ∧
       (morphVisualizer m₁ pa fs ts t).rot4dXW
         = pa.rot4dXW + 0.002 * easeInOutCubic t ∧
       (morphVisualizer m₂ pb fs ts t).rot4dXW
         = pb.rot4dXW + 0.002 * easeInOutCubic t) ∧
      (onTransitionProgress m₁ fc tc p (some pa)).toCardWrites
        = (onTransitionProgress m₂ fc tc p (some pb)).toCardWrites := by
  intro m₁ m₂ fc tc p pa pb fs ts n i q t hpi hcos hsin
  refine ⟨?_, ?_, ?_⟩
  · unfold disassembleCardStyle
    rw [hpi, hcos, hsin]
    exact ⟨rfl, rfl, rfl, rfl, rfl⟩
  · refine ⟨rfl, rfl, rfl, rfl, rfl, ?_, rfl, rfl⟩
    show m₁.sin (easeInOutCubic t * m₁.pi) = m₂.sin (easeInOutCubic t * m₂.pi)
    rw [hpi, hsin]
  · unfold onTransitionProgress
    split_ifs <;> rfl

/-- Witness for C3's amended theorem: `mZero` and `mRand` agree on `pi`,
`cos`, `sin`, so the opacity write and the to-card writes coincide even
though the random draws and the accumulated parameters differ. -/
theorem transition_writes_deterministic_modulo_witness :
    (disassembleCardStyle mZero 4 0 1).opacity
      = (disassembleCardStyle mRand 4 0 1).opacity ∧
    (onTransitionProgress mZero heroConfig capabilitiesConfig 0.8
        (some paramsA)).toCardWrites
      = (onTransitionProgress mRand heroConfig capabilitiesConfig 0.8
          (some paramsB)).toCardWrites := by
  have h := transition_writes_deterministic_modulo mZero mRand heroConfig
    capabilitiesConfig 0.8 paramsA paramsB heroState capabilitiesState
    4 0 1 0.5 rfl rfl rfl
  exact ⟨h.1.2.2.2.1, h.2.2⟩

/-! ### Map helper lemmas -/

lemma mapGet_isSome_of_mem {α : Type} {m : List (String × α)} {k : String}
    (h : k ∈ m.map Prod.fst) : (mapGet m k).isSome := by
  induction m with
  | nil => simp at h
  | cons hd tl ih =>
      obtain ⟨k₀, v₀⟩ := hd
      rw [List.map_cons, List.mem_cons] at h
      by_cases hk : k₀ = k
      · simp [mapGet, hk]
      · rcases h with h | h
        · exact absurd h.symm hk
        · simpa [mapGet, hk] using ih h

lemma filterMap_eq_self {α : Type} (f : α → Option α) :
    ∀ l : List α, (∀ x ∈ l, f x = some x) → l.filterMap f = l := by
  intro l h
  induction l with
  | nil => rfl
  | cons hd tl ih =>
      have h1 : f hd = some hd := h hd (by simp)
      have h2 : tl.filterMap f = tl := ih fun x hx => h x (by simp [hx])
      simp [List.filterMap_cons, h1, h2]

lemma mapGet_mapSet_self {α : Type} (m : List (String × α)) (k : String)
    (v : α) : mapGet (mapSet m k v) k = some v := by
  induction m with
  | nil => simp [mapSet, mapGet]
  | cons hd tl ih =>
      obtain ⟨k₀, v₀⟩ := hd
      by_cases hk : k₀ = k
      · simp [mapSet, mapGet, hk]
      · simp [mapSet, mapGet, hk, ih]

lemma mapGet_mapSet_ne {α : Type} (m : List (String × α)) (k k' : String)
    (v : α) (hne : k' ≠ k) : mapGet (mapSet m k v) k' = mapGet m k' := by
  induction m with
  | nil => simp [mapSet, mapGet, hne.symm]
  | cons hd tl ih =>
      obtain ⟨k₀, v₀⟩ := hd
      by_cases hk : k₀ = k
      · subst hk
        simp [mapSet, mapGet, hne.symm]
      · by_cases hk' : k₀ = k'
        · simp [mapSet, mapGet, hk, hk', hne]
        · simp [mapSet, mapGet, hk, hk', ih]

lemma mapSet_keys {α : Type} (m : List (String × α)) (k : String) (v : α) :
    (mapSet m k v).map Prod.fst
      = if k ∈ m.map Prod.fst then m.map Prod.fst
        else m.map Prod.fst ++ [k] := by
  induction m with
  | nil => simp [mapSet]
  | cons hd tl ih =>
      obtain ⟨k₀, v₀⟩ := hd
      by_cases hk : k₀ = k
      · subst hk
        simp [mapSet]
      · have hk' : ¬ k = k₀ := fun h => hk h.symm
        by_cases hmem : k ∈ tl.map Prod.fst
        · simp [mapSet, hk, hk', hmem, ih]
        · simp [mapSet, hk, hk', hmem, ih]

/-- C7: `setupMorphingTransitions` creates exactly the transitions between
consecutive registered sections, in registration order: the created list is
`sections.zip sections.tail` over the keys of `sectionConfigs`, and its
length is `k - 1` for `k` registered sections (so none for fewer than
two). -/
theorem setupMorphingTransitions_consecutive_pairs :
    ∀ configs : List (String × StoredConfig),
      setupMorphingTransitions configs
          = (configs.map Prod.fst).zip (configs.map Prod.fst).tail ∧
      (setupMorphingTransitions configs).length = configs.length - 1 := by
  intro configs
  have key : ∀ p ∈ (configs.map Prod.fst).zip (configs.map Prod.fst).tail,
      createMorphTransition configs p.1 p.2 = some p := by
    intro p hp
    obtain ⟨a, b⟩ := p
    have hmem := List.of_mem_zip hp
    have ha := mapGet_isSome_of_mem hmem.1
    have hb := mapGet_isSome_of_mem (List.mem_of_mem_tail hmem.2)
    obtain ⟨va, hva⟩ := Option.isSome_iff_exists.mp ha
    obtain ⟨vb, hvb⟩ := Option.isSome_iff_exists.mp hb
    unfold createMorphTransition
    rw [hva, hvb]
  have h1 : setupMorphingTransitions configs
      = (configs.map Prod.fst).zip (configs.map Prod.fst).tail := by
    unfold setupMorphingTransitions
    exact filterMap_eq_self _ _ key
  refine ⟨h1, ?_⟩
  rw [h1, List.length_zip, List.length_tail, List.length_map]
  omega

/-- C8: `registerSection` is atomic on failure: when
`document.getElementById(sectionId)` finds no element the map of section
configurations is returned unchanged; when it finds one, exactly one entry
keyed by `sectionId` is added (or overwritten in place), its `cardCount`
equals the number of elements matched by the card selector within the
section, and every other key maps to its previous configuration. -/
theorem registerSection_atomic :
    ∀ (doc : Document) (m : List (String × StoredConfig))
      (sectionId : String) (config : RegisterConfig),
      (doc.getElementById sectionId = none →
        registerSection doc m sectionId config = m) ∧
      (∀ sectionEl, doc.getElementById sectionId = some sectionEl →
        (mapGet (registerSection doc m sectionId config) sectionId).map
            StoredConfig.cardCount
          = some (sectionEl.querySelectorAll
              (config.cardSelector.getD defaultCardSelector)).length ∧
        (∀ k, k ≠ sectionId →
          mapGet (registerSection doc m sectionId config) k = mapGet m k) ∧
        (registerSection doc m sectionId config).map Prod.fst
          = (if sectionId ∈ m.map Prod.fst then m.map Prod.fst
             else m.map Prod.fst ++ [sectionId])) := by
  intro doc m sectionId config
  constructor
  · intro h
    unfold registerSection
    rw [h]
  · intro sectionEl h
    unfold registerSection
    rw [h]
    refine ⟨?_, ?_, ?_⟩
    · rw [mapGet_mapSet_self]
      rfl
    · intro k hk
      exact mapGet_mapSet_ne _ _ _ _ hk
    · exact mapSet_keys _ _ _

/-- Witness for C8: on `doc0`, registering a missing id leaves the empty
map empty, and registering `hero` stores `cardCount = 2` (the two
`.signal-card` matches). -/
theorem registerSection_atomic_witness :
    registerSection doc0 [] "missing" config0 = [] ∧
    (mapGet (registerSection doc0 [] "hero" config0) "hero").map
        StoredConfig.cardCount = some 2 := by
  constructor
  · exact (registerSection_atomic doc0 [] "missing" config0).1 rfl
  · have h := ((registerSection_atomic doc0 [] "hero" config0).2 sec0 rfl).1
    rw [h]
    rfl

/-- C6: when WebGL context creation fails (the created visualizer has no
`gl`), `initialize` catches the thrown error, logs it and returns
normally: `isInitialized` stays `false`, the morphing system is not
created (the field is unchanged), the render loop is not started, the
`clearSeasEnhancedReady` event is not dispatched, and no retry happens
(the visualizer constructor runs exactly once). -/
theorem initializeApp_gl_failure :
    ∀ s : AppState, s.isInitialized = false →
      (initializeApp false s).1.isInitialized = false ∧
      (initializeApp false s).1.morphingSystem = s.morphingSystem ∧
      InitEvent.logError "Initialization failed:" ∈ (initializeApp false s).2 ∧
      InitEvent.dispatchReady ∉ (initializeApp false s).2 ∧
      InitEvent.startRenderLoop ∉ (initializeApp false s).2 ∧
      (initializeApp false s).2.count InitEvent.createVisualizer = 1 := by
  intro s h
  have h1 : initializeApp false s
      = ({ s with quantumVisualizer := some { gl := false } },
         [InitEvent.logInfo "Creating WorkingQuantumVisualizer...",
          InitEvent.createVisualizer,
          InitEvent.logError "Initialization failed:"]) := by
    simp [initializeApp, h]
  refine ⟨?_, ?_, ?_, ?_, ?_, ?_⟩
  · rw [h1]; exact h
  · rw [h1]
  · rw [h1]; simp
  · rw [h1]; simp
  · rw [h1]; simp
  · rw [h1]; simp [List.count_cons, List.count_nil]

/-- Witness for C6 on a fresh application state. -/
theorem initializeApp_gl_failure_witness :
    (initializeApp false appFresh).1.isInitialized = false ∧
    InitEvent.dispatchReady ∉ (initializeApp false appFresh).2 := by
  have h := initializeApp_gl_failure appFresh rfl
  exact ⟨h.1, h.2.2.2.1⟩

/-- C10: once `isInitialized` is `true`, every further `initialize` call
returns right after the warning with the application state unchanged: no
visualizer is created, no render loop started and no scroll-triggered
morph transitions set up. -/
theorem initializeApp_guard_idempotent :
    ∀ (glOk : Bool) (s : AppState), s.isInitialized = true →
      initializeApp glOk s
          = (s, [InitEvent.logWarn "Already initialized"]) ∧
      InitEvent.createVisualizer ∉ (initializeApp glOk s).2 ∧
      InitEvent.startRenderLoop ∉ (initializeApp glOk s).2 ∧
      InitEvent.setupMorphingTransitions ∉ (initializeApp glOk s).2 ∧
      InitEvent.dispatchReady ∉ (initializeApp glOk s).2 := by
  intro glOk s h
  have h1 : initializeApp glOk s
      = (s, [InitEvent.logWarn "Already initialized"]) := by
    simp [initializeApp, h]
  refine ⟨h1, ?_, ?_, ?_, ?_⟩ <;> rw [h1] <;> simp

/-- Witness for C10 on a fully initialized state. -/
theorem initializeApp_guard_idempotent_witness :
    initializeApp true appInit
      = (appInit, [InitEvent.logWarn "Already initialized"]) :=
  (initializeApp_guard_idempotent true appInit rfl).1

end ClearSeas
